import Mathlib

/-!
# Verification of the object-storage gateway routing core

Shallow embedding of the discovery + routing + storage-client orchestration
subsystem of the gateway (Go sources: `internal/gateway/service.go`,
`internal/discovery/*.go`, `internal/pkg/s3/client.go`).

Machine integers are modelled as `Nat`/`Int` with explicit `% 2 ^ 64` where
64-bit overflow matters.  Go's `error` values are modelled by the inductive
`GoErr`; `errors.Wrap` from `github.com/pkg/errors` becomes `GoErr.wrap`
(message plus cause, traversed by `errorsIs` the way `errors.Is` unwraps a
cause chain).  External collaborators (the Docker daemon, the Minio wire
client) are modelled as oracles recording the outcome of each primitive
call; the code under verification is the Go code that consumes those
outcomes.
-/

/-- Model of a Go `error` value as used by this repository:
`errMsg` is `errors.New` / `fmt.Errorf`, `wrap` is `errors.Wrap(cause, msg)`
from `github.com/pkg/errors` (its `Unwrap`/`Cause` chain keeps `cause`),
`minioErr` is a `minio.ErrorResponse` carrying an HTTP status code,
`deadlineExceeded` and `canceled` are `context.DeadlineExceeded` and
`context.Canceled`. -/
inductive GoErr where
  | errMsg (msg : String)
  | wrap (msg : String) (cause : GoErr)
  | minioErr (statusCode : Nat) (msg : String)
  | deadlineExceeded
  | canceled
  deriving DecidableEq, Repr

/-- Go `errors.Is(e, target)`: `e` matches `target` directly or after
unwrapping the cause chain produced by `errors.Wrap`. -/
def errorsIs (e target : GoErr) : Bool :=
  match e with
  | .wrap m c => decide (GoErr.wrap m c = target) || errorsIs c target
  | e' => decide (e' = target)

/-- Model of `minio.ToErrorResponse(err).StatusCode`: the status code of a
`minio.ErrorResponse`, and the zero value (0) for any other error type
(minio's `ToErrorResponse` is a direct type assertion, no unwrapping). -/
def toErrorResponseStatus : GoErr → Nat
  | .minioErr statusCode _ => statusCode
  | _ => 0

/-- Sentinel `ErrObjectNotFound = errors.New("object not found")` from
`internal/pkg/s3/client.go`.  The code has exactly one such sentinel, so
structural equality coincides with Go's pointer identity for it. -/
def ErrObjectNotFound : GoErr := GoErr.errMsg "object not found"

/-- Struct `discovery.S3Instance` from `internal/discovery/models.go`.
`InstanceNum` is a Go `int`, modelled as `Int`. -/
structure S3Instance where
  ContainerId : String
  InstanceNum : Int
  AccessKey : String
  SecretKey : String
  IpAddress : String
  Hostname : String
  Port : String
  deriving DecidableEq, Repr

/-! ## The router (`shardObjectToInstance`, `hashId` in `service.go`) -/

/-- FNV-64a offset basis, from Go's `hash/fnv`. -/
def fnvOffset64 : Nat := 14695981039346656037

/-- FNV-64a prime, from Go's `hash/fnv`. -/
def fnvPrime64 : Nat := 1099511628211

/-- One step of FNV-64a on 64-bit words: xor in the byte, multiply by the
prime, keep the low 64 bits. -/
def fnv64aStep (h b : Nat) : Nat := ((h ^^^ b) * fnvPrime64) % 2 ^ 64

/-- UTF-8 encoding of one code point, as byte values (the arithmetic form
of the shift-and-mask encoder; Go's `[]byte(string)` conversion produces
exactly these bytes). -/
def utf8Bytes (n : Nat) : List Nat :=
  if n ≤ 0x7f then [n]
  else if n ≤ 0x7ff then [0xc0 + n / 64, 0x80 + n % 64]
  else if n ≤ 0xffff then [0xe0 + n / 4096, 0x80 + (n / 64) % 64, 0x80 + n % 64]
  else [0xf0 + n / 262144, 0x80 + (n / 4096) % 64, 0x80 + (n / 64) % 64, 0x80 + n % 64]

/-- The UTF-8 bytes of a string, i.e. Go's `[]byte(id)`. -/
def strBytes (s : String) : List Nat := s.data.flatMap (fun c => utf8Bytes c.toNat)

/-- Function `hashId` (`service.go:217`): the 64-bit FNV-1a hash of the UTF-8 bytes
of `id` (`hash.Write([]byte(id))` feeds the string's bytes). -/
def hashId (id : String) : Nat :=
  (strBytes id).foldl fnv64aStep fnvOffset64

/-- Function `shardObjectToInstance` (`service.go:188`), the pure part after
discovery returned `instances`: errors on an empty collection, otherwise
computes `hashId(objectId) % len(instances)` and scans the list for the
instance whose `InstanceNum` equals that value (`uint64 → int` conversion
is exact here because the remainder is below `len(instances)`). -/
def shardObjectToInstance (instances : List S3Instance) (objectId : String) :
    Except GoErr S3Instance :=
  if instances.length = 0 then
    .error (GoErr.errMsg "no instances available")
  else
    let objectIdHash := hashId objectId
    let instanceNum := objectIdHash % instances.length
    match instances.find? (fun inst => inst.InstanceNum == Int.ofNat instanceNum) with
    | some inst => .ok inst
    | none => .error (GoErr.errMsg "instance not found or unavailable")

/-- A backend node descriptor as discovery actually produces it for the
container `amazin-object-storage-node-1`: `InstanceNum = 1` (instance
numbers begin at 1 per `models.go`). -/
def node1 : S3Instance :=
  { ContainerId := "c1", InstanceNum := 1, AccessKey := "ak", SecretKey := "sk",
    IpAddress := "10.0.0.2", Hostname := "node1", Port := "9000" }

/-- Like `node1` but for `amazin-object-storage-node-2`. -/
def node2 : S3Instance :=
  { ContainerId := "c2", InstanceNum := 2, AccessKey := "ak2", SecretKey := "sk2",
    IpAddress := "10.0.0.3", Hostname := "node2", Port := "9000" }

/-- A descriptor with `InstanceNum = 0`, reachable by `hash mod 1 = 0`. -/
def node0 : S3Instance :=
  { ContainerId := "c0", InstanceNum := 0, AccessKey := "ak0", SecretKey := "sk0",
    IpAddress := "10.0.0.9", Hostname := "node0", Port := "9000" }

/-- **C1** (code_bug): the claim says routing over a non-empty collection
returns exactly one descriptor and never an error (selection by
`hash mod len` always succeeds).  The code instead searches for a
descriptor whose `InstanceNum` equals `hash mod len`; discovery numbers
instances from 1, so with the single backend `node1` the target value is
`hash mod 1 = 0`, no descriptor matches, and routing fails for every
objectId even though a backend is available. -/
theorem shard_errs_on_nonempty_single_node_one :
    [node1] ≠ [] ∧
      shardObjectToInstance [node1] "a" =
        .error (GoErr.errMsg "instance not found or unavailable") := by
  constructor
  · simp
  · rfl

/-- **C7** (confirmed): routing over an empty backend collection fails with
the no-backends-available error (`"no instances available"`) for every
objectId, and returns no descriptor. -/
theorem shard_empty_returns_no_backends_error (objectId : String) :
    shardObjectToInstance [] objectId = .error (GoErr.errMsg "no instances available") :=
  rfl

/-- Helper: `List.find?` returns the same result on two permuted lists when the
predicate holds for at most one element (up to equality) of the list. -/
theorem find_eq_of_perm_of_unique {α : Type} (p : α → Bool) {xs ys : List α}
    (hperm : xs.Perm ys)
    (huniq : ∀ a ∈ xs, ∀ b ∈ xs, p a = true → p b = true → a = b) :
    xs.find? p = ys.find? p := by
  cases hfx : xs.find? p with
  | none =>
    have hx := List.find?_eq_none.mp hfx
    exact (List.find?_eq_none.mpr fun y hy => hx y (hperm.symm.subset hy)).symm
  | some a =>
    have hpa : p a = true := List.find?_some hfx
    have hax : a ∈ xs := List.mem_of_find?_eq_some hfx
    cases hfy : ys.find? p with
    | none =>
      have hy := List.find?_eq_none.mp hfy
      exact absurd hpa (hy a (hperm.subset hax))
    | some b =>
      have hpb : p b = true := List.find?_some hfy
      have hbx : b ∈ xs := hperm.symm.subset (List.mem_of_find?_eq_some hfy)
      exact congrArg some (huniq a hax b hbx hpa hpb)

/-- **C2** (confirmed): for a fixed objectId, two node collections that are
permutations of one another — with instance numbers unique within the
snapshot, the data-model invariant — yield the same routing result (same
selected descriptor, or the same error): the selection depends only on
`hashId objectId` and the count, not on list order. -/
theorem shard_permutation_invariant (objectId : String) (xs ys : List S3Instance)
    (hperm : xs.Perm ys)
    (hnodup : (xs.map S3Instance.InstanceNum).Nodup) :
    shardObjectToInstance xs objectId = shardObjectToInstance ys objectId := by
  have hlen : xs.length = ys.length := hperm.length_eq
  unfold shardObjectToInstance
  rw [← hlen]
  by_cases h0 : xs.length = 0
  · simp [h0]
  · simp only [h0, if_false]
    have hfind :
        xs.find? (fun inst =>
            inst.InstanceNum == Int.ofNat (hashId objectId % xs.length)) =
          ys.find? (fun inst =>
            inst.InstanceNum == Int.ofNat (hashId objectId % xs.length)) := by
      apply find_eq_of_perm_of_unique _ hperm
      intro a ha b hb hpa hpb
      have hfa : a.InstanceNum = Int.ofNat (hashId objectId % xs.length) := by
        exact_mod_cast eq_of_beq hpa
      have hfb : b.InstanceNum = Int.ofNat (hashId objectId % xs.length) := by
        exact_mod_cast eq_of_beq hpb
      exact List.inj_on_of_nodup_map hnodup ha hb (hfa.trans hfb.symm)
    rw [hfind]

/-- Closed witness for `shard_permutation_invariant` at a concrete
permutation of a two-node snapshot. -/
theorem shard_permutation_invariant_witness :
    ([node1, node2].Perm [node2, node1]) ∧
      ([node1, node2].map S3Instance.InstanceNum).Nodup ∧
      shardObjectToInstance [node1, node2] "a" =
        shardObjectToInstance [node2, node1] "a" :=
  ⟨List.Perm.swap node2 node1 [], by decide,
    shard_permutation_invariant "a" [node1, node2] [node2, node1]
      (List.Perm.swap node2 node1 []) (by decide)⟩

/-! ## The orchestrator's put and get paths (`service.go:42`, `service.go:63`)

`AddOrUpdateObject` derives its target instance by calling
`s.shardObjectToInstance(ctx, objectId)` (`service.go:47`) and performs the
backend put there; `GetObject` derives its target by the same call
(`service.go:68`) and reads there.  The per-backend Minio object stores are
modelled as a map from descriptor and key to stored bytes; the backend put
is last-writer-wins overwrite (`PutObject`, `client.go:68`). -/

/-- The states of all backend object stores: descriptor → key → bytes. -/
def BackendStores := S3Instance → String → Option (List Nat)

/-- The write path `AddOrUpdateObject` (`service.go:42`): route via
`shardObjectToInstance`, wrap a routing failure
(`"failed to assign object to instance"`), otherwise overwrite the object
on the selected backend only. -/
def gatewayPut (instances : List S3Instance) (stores : BackendStores)
    (objectId : String) (data : List Nat) : Except GoErr BackendStores :=
  match shardObjectToInstance instances objectId with
  | .error e => .error (GoErr.wrap "failed to assign object to instance" e)
  | .ok inst =>
      .ok fun i k => if i = inst ∧ k = objectId then some data else stores i k

/-- The read path `GetObject` (`service.go:63`): route via the same
`shardObjectToInstance` call, wrap a routing failure identically, otherwise
read from the selected backend only. -/
def gatewayGetFromStores (instances : List S3Instance) (stores : BackendStores)
    (objectId : String) : Except GoErr (Option (List Nat)) :=
  match shardObjectToInstance instances objectId with
  | .error e => .error (GoErr.wrap "failed to assign object to instance" e)
  | .ok inst => .ok (stores inst objectId)

/-- **C3** (confirmed): the put path and the get path select their backend
through the same single routing function, so a successful write followed by
a read under an unchanged backend set reads from the backend that was
written and returns the written data. -/
theorem put_then_get_reads_written_backend (instances : List S3Instance)
    (stores stores2 : BackendStores) (objectId : String) (data : List Nat)
    (hput : gatewayPut instances stores objectId data = .ok stores2) :
    gatewayGetFromStores instances stores2 objectId = .ok (some data) := by
  unfold gatewayPut at hput
  unfold gatewayGetFromStores
  cases hshard : shardObjectToInstance instances objectId with
  | error e => rw [hshard] at hput; cases hput
  | ok inst =>
    rw [hshard] at hput
    cases hput
    simp

/-- The all-empty backend stores. -/
def stores0 : BackendStores := fun _ _ => none

/-- The stores `stores0` after writing bytes `[104, 105]` under key `"a"` on `node0`. -/
def stores1 : BackendStores :=
  fun i k => if i = node0 ∧ k = "a" then some [104, 105] else stores0 i k

/-- Closed witness for `put_then_get_reads_written_backend` on the
single-node snapshot `[node0]` (where routing succeeds: `hash % 1 = 0`
matches `InstanceNum 0`). -/
theorem put_then_get_reads_written_backend_witness :
    gatewayPut [node0] stores0 "a" [104, 105] = .ok stores1 ∧
      gatewayGetFromStores [node0] stores1 "a" = .ok (some [104, 105]) :=
  ⟨rfl, put_then_get_reads_written_backend [node0] stores0 stores1 "a" [104, 105] rfl⟩

/-! ## The storage client (`internal/pkg/s3/client.go`)

One invocation of `MinioClient.AddOrUpdateObject` / `GetObject` /
`GetObjects` observes the backend through the minio wire-client primitives;
the outcome of each primitive call is an oracle field, and the embedded
function is the Go code that dispatches on those outcomes. -/

/-- Outcomes of the minio primitives used by one
`MinioClient.AddOrUpdateObject` call (`client.go:50`): the
`BucketExists` result, the `MakeBucket` error (if called), and the
`PutObject` error. -/
structure PutBackend where
  bucketExists : Except GoErr Bool
  makeBucket : Option GoErr
  putObject : Option GoErr
  deriving Repr

/-- The `PutObject` error handling at `client.go:68`: on an error whose
minio status code is 404 return `ErrObjectNotFound`; otherwise fall through
and return nil (the Go code has no `return err` for the non-404 case). -/
def putObjectPhase (b : PutBackend) : Option GoErr :=
  match b.putObject with
  | some e => if toErrorResponseStatus e = 404 then some ErrObjectNotFound else none
  | none => none

/-- Function `MinioClient.AddOrUpdateObject` (`client.go:50`): check bucket
existence (wrap a failure), create the bucket when absent (wrap a failure),
then put the object. -/
def clientAddOrUpdateObject (b : PutBackend) (objectId : String) : Option GoErr :=
  match b.bucketExists with
  | .error e => some (GoErr.wrap "failed to check if bucket exists" e)
  | .ok ex =>
    if ex then putObjectPhase b
    else
      match b.makeBucket with
      | some e => some (GoErr.wrap "failed to create a new bucket" e)
      | none => putObjectPhase b

/-- A put invocation whose backend `PutObject` fails with an internal
(HTTP 500) minio error, bucket already present. -/
def putBackend500 : PutBackend :=
  { bucketExists := .ok true, makeBucket := none,
    putObject := some (GoErr.minioErr 500 "InternalError") }

/-- **C5** (code_bug): the claim says every backend put error yields a
non-nil error from `AddOrUpdateObject`.  The code maps a 404-status put
error to `ErrObjectNotFound` but has no return for any other put error, so
a 500-status put failure is silently swallowed and the call reports
success (`nil`). -/
theorem put_error_swallowed_reports_success :
    putBackend500.putObject = some (GoErr.minioErr 500 "InternalError") ∧
      clientAddOrUpdateObject putBackend500 "x" = none :=
  ⟨rfl, rfl⟩

/-- A duplicate-create error from `MakeBucket` (minio's
`BucketAlreadyOwnedByYou`, HTTP 409). -/
def dupBucketErr : GoErr := GoErr.minioErr 409 "BucketAlreadyOwnedByYou"

/-- A put invocation that loses the create-bucket race: the existence check
reports the bucket absent and `MakeBucket` fails with the duplicate-create
error. -/
def putBackendDup : PutBackend :=
  { bucketExists := .ok false, makeBucket := some dupBucketErr, putObject := none }

/-- Counterexample for **C9**: the claim says a duplicate-create error from
the create-bucket call is treated as success and not surfaced.  The code
wraps and returns every `MakeBucket` error, including this one. -/
theorem dup_create_error_not_swallowed :
    clientAddOrUpdateObject putBackendDup "x" =
        some (GoErr.wrap "failed to create a new bucket" dupBucketErr) ∧
      (clientAddOrUpdateObject putBackendDup "x").isSome = true :=
  ⟨rfl, rfl⟩

/-- **C9** (corrected): when the existence check reports the bucket absent
and `MakeBucket` fails — with a duplicate-create error or any other — the
error is wrapped as `"failed to create a new bucket"` and surfaced; the
write path does not report success. -/
theorem makeBucket_error_surfaced (b : PutBackend) (e : GoErr) (objectId : String)
    (hex : b.bucketExists = .ok false) (hmk : b.makeBucket = some e) :
    clientAddOrUpdateObject b objectId =
      some (GoErr.wrap "failed to create a new bucket" e) := by
  unfold clientAddOrUpdateObject
  rw [hex, hmk]
  simp

/-- Closed witness for `makeBucket_error_surfaced` at the concrete
duplicate-create race. -/
theorem makeBucket_error_surfaced_witness :
    putBackendDup.bucketExists = .ok false ∧
      putBackendDup.makeBucket = some dupBucketErr ∧
      clientAddOrUpdateObject putBackendDup "y" =
        some (GoErr.wrap "failed to create a new bucket" dupBucketErr) :=
  ⟨rfl, rfl, makeBucket_error_surfaced putBackendDup dupBucketErr "y" rfl rfl⟩

/-- Outcomes of the minio primitives used by one `MinioClient.GetObject`
call (`client.go:81`): the error of the `GetObject` call itself, and the
`Stat` result (either an error, or a stat whose `Err` field may be set). -/
structure GetOutcome where
  callErr : Option GoErr
  statRes : Except GoErr (Option GoErr)
  deriving Repr

/-- Function `MinioClient.GetObject` (`client.go:81`): a call error with
minio status 404 becomes `ErrObjectNotFound`; any other call error is
wrapped as `"failed to get object from S3"`; a `Stat` error is wrapped the
same way; a non-nil `stat.Err` is returned raw; otherwise the object
handle (modelled as `Unit`) is returned. -/
def clientGetObject (o : GetOutcome) : Except GoErr Unit :=
  match o.callErr with
  | some e =>
    if toErrorResponseStatus e = 404 then .error ErrObjectNotFound
    else .error (GoErr.wrap "failed to get object from S3" e)
  | none =>
    match o.statRes with
    | .error e => .error (GoErr.wrap "failed to get object from S3" e)
    | .ok (some e) => .error e
    | .ok none => .ok ()

/-- Function `ServiceV1.GetObject` (`service.go:63`): route via
`shardObjectToInstance` (wrap a routing failure), create the minio client
(its error returned unwrapped), call the storage client's `GetObject` and
wrap its error as `"failed to get object from S3"` (`service.go:84`). -/
def gatewayGetObject (instances : List S3Instance) (objectId : String)
    (outcomes : S3Instance → GetOutcome)
    (newClientErr : S3Instance → Option GoErr) : Except GoErr Unit :=
  match shardObjectToInstance instances objectId with
  | .error e => .error (GoErr.wrap "failed to assign object to instance" e)
  | .ok inst =>
    match newClientErr inst with
    | some e => .error e
    | none =>
      match clientGetObject (outcomes inst) with
      | .error e => .error (GoErr.wrap "failed to get object from S3" e)
      | .ok _ => .ok ()

/-- **C6** (confirmed): when the backend's get call reports the key absent
(a 404-status error), the storage client returns `ErrObjectNotFound`, and
after the orchestrator's wrapping the transport layer still recognises it
via `errors.Is`; any other backend call error (one not already carrying
`ErrObjectNotFound` in its chain) surfaces as a wrapped generic failure
that `errors.Is` does not identify as `ErrObjectNotFound`. -/
theorem getObject_error_taxonomy (instances : List S3Instance) (objectId : String)
    (outcomes : S3Instance → GetOutcome) (newClientErr : S3Instance → Option GoErr)
    (inst : S3Instance) (e : GoErr)
    (hshard : shardObjectToInstance instances objectId = .ok inst)
    (hnce : newClientErr inst = none)
    (hcall : (outcomes inst).callErr = some e) :
    (toErrorResponseStatus e = 404 →
        gatewayGetObject instances objectId outcomes newClientErr =
            .error (GoErr.wrap "failed to get object from S3" ErrObjectNotFound) ∧
          errorsIs (GoErr.wrap "failed to get object from S3" ErrObjectNotFound)
            ErrObjectNotFound = true) ∧
      (toErrorResponseStatus e ≠ 404 → errorsIs e ErrObjectNotFound = false →
        gatewayGetObject instances objectId outcomes newClientErr =
            .error (GoErr.wrap "failed to get object from S3"
              (GoErr.wrap "failed to get object from S3" e)) ∧
          errorsIs (GoErr.wrap "failed to get object from S3"
              (GoErr.wrap "failed to get object from S3" e))
            ErrObjectNotFound = false) := by
  constructor
  · intro h404
    constructor
    · unfold gatewayGetObject clientGetObject
      simp [hshard, hnce, hcall, h404]
    · simp [errorsIs, ErrObjectNotFound]
  · intro hnot404 hnotchain
    constructor
    · unfold gatewayGetObject clientGetObject
      simp [hshard, hnce, hcall, hnot404]
    · simp [errorsIs, ErrObjectNotFound] at hnotchain ⊢
      exact hnotchain

/-- Closed witness for `getObject_error_taxonomy`: a one-node snapshot
where the backend answers the get call with a 404 `NoSuchKey` error. -/
theorem getObject_error_taxonomy_witness :
    gatewayGetObject [node0] "a"
        (fun _ => { callErr := some (GoErr.minioErr 404 "NoSuchKey"), statRes := .ok none })
        (fun _ => none) =
      .error (GoErr.wrap "failed to get object from S3" ErrObjectNotFound) ∧
      errorsIs (GoErr.wrap "failed to get object from S3" ErrObjectNotFound)
        ErrObjectNotFound = true :=
  (getObject_error_taxonomy [node0] "a"
      (fun _ => { callErr := some (GoErr.minioErr 404 "NoSuchKey"), statRes := .ok none })
      (fun _ => none) node0 (GoErr.minioErr 404 "NoSuchKey") rfl rfl rfl).1 rfl

/-! ## Discovery (`DiscoverS3Instances`, `getContainerDetails`)

The Go standard-library string helpers used by `getContainerDetails` are
embedded over `List Char`; the Docker daemon is an oracle giving the
container listing and each container's inspection result. -/

/-- Go `strings.HasPrefix`-style check: `sub` is a leading part of `s`. -/
def leadsWith : List Char → List Char → Bool
  | [], _ => true
  | _ :: _, [] => false
  | a :: as, b :: bs => a == b && leadsWith as bs

/-- Go `strings.Contains(s, sub)` over char lists: some tail of `s` starts
with `sub`. -/
def containsSub : List Char → List Char → Bool
  | [], sub => sub.isEmpty
  | a :: rest, sub => leadsWith sub (a :: rest) || containsSub rest sub

/-- Drop the leading characters of `s` that occur in the cutset `cut`. -/
def trimLeftChars (cut : List Char) : List Char → List Char
  | [] => []
  | a :: rest => if cut.contains a then trimLeftChars cut rest else a :: rest

/-- Go `strings.Trim(s, cut)`: drop leading and trailing cutset characters. -/
def goTrim (s cut : String) : String :=
  ⟨(trimLeftChars cut.data (trimLeftChars cut.data s.data).reverse).reverse⟩

/-- Split a char list on a separator character, keeping empty parts (the
behaviour of Go `strings.Split` with a one-character separator). -/
def splitCharAux (sep : Char) : List Char → List Char → List (List Char)
  | [], acc => [acc.reverse]
  | a :: rest, acc =>
    if a == sep then acc.reverse :: splitCharAux sep rest []
    else splitCharAux sep rest (a :: acc)

/-- Go `strings.Split(s, sep)` for a one-character separator. -/
def goSplit (s : String) (sep : Char) : List String :=
  (splitCharAux sep s.data []).map (fun l => ⟨l⟩)

/-- Go `strings.TrimPrefix`-equivalent: drop `pre` from the front of `s`
when present, otherwise return `s` unchanged. -/
def goTrimPre (s pre : String) : String :=
  if leadsWith pre.data s.data then ⟨s.data.drop pre.data.length⟩ else s

/-- Go `strings.TrimSuffix(s, suf)`: drop `suf` from the end of `s` when
present, otherwise return `s` unchanged. -/
def goTrimSuffix (s suf : String) : String :=
  if leadsWith suf.data.reverse s.data.reverse then
    ⟨(s.data.reverse.drop suf.data.length).reverse⟩
  else s

/-- Value of a decimal digit character, `none` for any other character. -/
def digitVal (c : Char) : Option Nat :=
  if '0' ≤ c ∧ c ≤ '9' then some (c.toNat - '0'.toNat) else none

/-- Accumulate decimal digits; `none` on the first non-digit. -/
def parseNatDigits : List Char → Nat → Option Nat
  | [], acc => some acc
  | c :: rest, acc =>
    match digitVal c with
    | some d => parseNatDigits rest (acc * 10 + d)
    | none => none

/-- Go `strconv.Atoi`: optional sign, then at least one decimal digit and
nothing else; any other input is a syntax error.  (Atoi's range check is
immaterial for the instance ordinals handled here.) -/
def goAtoi (s : String) : Except GoErr Int :=
  match s.data with
  | [] => .error (GoErr.errMsg "invalid syntax")
  | '-' :: rest =>
    match rest, parseNatDigits rest 0 with
    | _ :: _, some n => .ok (-(n : Int))
    | _, _ => .error (GoErr.errMsg "invalid syntax")
  | '+' :: rest =>
    match rest, parseNatDigits rest 0 with
    | _ :: _, some n => .ok (n : Int)
    | _, _ => .error (GoErr.errMsg "invalid syntax")
  | l =>
    match parseNatDigits l 0 with
    | some n => .ok (n : Int)
    | none => .error (GoErr.errMsg "invalid syntax")

/-- Constant `s3ContainerPrefix = "amazin-object-storage-node-"` from the
discovery service (renamed here). -/
def s3ContainerMarker : String := "amazin-object-storage-node-"

/-- Constant `minioPort = "9000"` from the discovery service. -/
def minioPort : String := "9000"

/-- Constant `minioAccessKey = "MINIO_ACCESS_KEY="` from the discovery
service. -/
def minioAccessKeyVar : String := "MINIO_ACCESS_KEY="

/-- Constant `minioSecret = "MINIO_SECRET_KEY="` from the discovery
service. -/
def minioSecretVar : String := "MINIO_SECRET_KEY="

/-- One entry of Docker's `ContainerList` response: the container id and
its names. -/
structure ContainerSummary where
  id : String
  names : List String
  deriving DecidableEq, Repr

/-- The part of Docker's `ContainerInspect` response that
`getContainerDetails` reads: `inspectedContainer.Name`, `.Config.Env`,
`.Config.Hostname`, `.NetworkSettings.IPAddress`. -/
structure ContainerJSON where
  name : String
  env : List String
  hostname : String
  ipAddress : String
  deriving DecidableEq, Repr

/-- The Docker daemon as an oracle: the outcome of `ContainerList` and of
`ContainerInspect` per container id. -/
structure DockerDaemon where
  containerList : Except GoErr (List ContainerSummary)
  containerInspect : String → Except GoErr ContainerJSON

/-- The credential scan over the container environment
(`part_005:98-105`): first value after `=` of a `MINIO_ACCESS_KEY=`
variable and of a `MINIO_SECRET_KEY=` variable (last occurrence wins, as
the Go loop overwrites); a variable matching neither is skipped, and an
absent variable leaves the empty string. -/
def scanCredentials (env : List String) : String × String :=
  env.foldl
    (fun p ev =>
      if leadsWith minioAccessKeyVar.data ev.data then
        ((goSplit ev '=').getD 1 "", p.2)
      else if leadsWith minioSecretVar.data ev.data then
        (p.1, (goSplit ev '=').getD 1 "")
      else p)
    ("", "")

/-- Function `getContainerDetails` (`part_005:73`): inspect the container
(wrap a failure), trim `/` from the name, split on `-` to find the
compose-project part, strip the recognition marker and a trailing `-1`,
parse the remaining text as the instance ordinal (wrap an `Atoi` failure as
`"failed to parse instance ID"`), and scan the environment for
credentials.  Absent credential variables are not an error: they yield
empty strings. -/
def getContainerDetails (daemon : DockerDaemon) (containerId : String) :
    Except GoErr S3Instance :=
  match daemon.containerInspect containerId with
  | .error e => .error (GoErr.wrap "failed to inspect container" e)
  | .ok inspected =>
    let containerName := goTrim inspected.name "/"
    let nameParts := goSplit containerName '-'
    let pre :=
      if nameParts.headD "" ≠ "amazin" then
        nameParts.headD "" ++ "-" ++ s3ContainerMarker
      else s3ContainerMarker
    let instanceIdString := goTrimSuffix (goTrimPre containerName pre) "-1"
    match goAtoi instanceIdString with
    | .error e => .error (GoErr.wrap "failed to parse instance ID" e)
    | .ok instanceId =>
      let keys := scanCredentials inspected.env
      .ok { ContainerId := containerId, InstanceNum := instanceId,
            AccessKey := keys.1, SecretKey := keys.2,
            IpAddress := inspected.ipAddress, Hostname := inspected.hostname,
            Port := minioPort }

/-- The inner loop of `DiscoverS3Instances` over one container's names
(`part_005:52-66`): each name containing the recognition marker triggers an
inspection; an inspection failure aborts the whole discovery call. -/
def discoverNames (daemon : DockerDaemon) (containerId : String) :
    List String → Except GoErr (List S3Instance)
  | [] => .ok []
  | nm :: rest =>
    if containsSub nm.data s3ContainerMarker.data then
      match getContainerDetails daemon containerId with
      | .error e => .error e
      | .ok details =>
        match discoverNames daemon containerId rest with
        | .error e => .error e
        | .ok ds => .ok (details :: ds)
    else discoverNames daemon containerId rest

/-- The outer loop of `DiscoverS3Instances` over the container listing. -/
def discoverContainers (daemon : DockerDaemon) :
    List ContainerSummary → Except GoErr (List S3Instance)
  | [] => .ok []
  | c :: rest =>
    match discoverNames daemon c.id c.names with
    | .error e => .error e
    | .ok ds =>
      match discoverContainers daemon rest with
      | .error e => .error e
      | .ok more => .ok (ds ++ more)

/-- Function `DiscoverS3Instances` (`part_005:40`): list the running
containers (wrap a failure as `"failed to list containers"`), then filter
to names containing the recognition marker and inspect each; the success
value starts from the literal empty (non-nil) slice `[]S3Instance{}`. -/
def DiscoverS3Instances (daemon : DockerDaemon) : Except GoErr (List S3Instance) :=
  match daemon.containerList with
  | .error e => .error (GoErr.wrap "failed to list containers" e)
  | .ok containers => discoverContainers daemon containers

/-- A Docker state with one malformed backend (its name's ordinal part is
`"x"`) among three valid ones. -/
def containersOneMalformed : List ContainerSummary :=
  [⟨"c1", ["/amazin-object-storage-node-1"]⟩,
   ⟨"cx", ["/amazin-object-storage-node-x"]⟩,
   ⟨"c2", ["/amazin-object-storage-node-2"]⟩,
   ⟨"c3", ["/amazin-object-storage-node-3"]⟩]

/-- The daemon oracle for `containersOneMalformed`; every container carries
both credential variables, so only the name parse distinguishes them. -/
def daemonOneMalformed : DockerDaemon :=
  { containerList := .ok containersOneMalformed,
    containerInspect := fun cid =>
      if cid = "c1" then
        .ok ⟨"/amazin-object-storage-node-1",
             ["MINIO_ACCESS_KEY=a1", "MINIO_SECRET_KEY=s1"], "h1", "ip1"⟩
      else if cid = "cx" then
        .ok ⟨"/amazin-object-storage-node-x",
             ["MINIO_ACCESS_KEY=ax", "MINIO_SECRET_KEY=sx"], "hx", "ipx"⟩
      else if cid = "c2" then
        .ok ⟨"/amazin-object-storage-node-2",
             ["MINIO_ACCESS_KEY=a2", "MINIO_SECRET_KEY=s2"], "h2", "ip2"⟩
      else if cid = "c3" then
        .ok ⟨"/amazin-object-storage-node-3",
             ["MINIO_ACCESS_KEY=a3", "MINIO_SECRET_KEY=s3"], "h3", "ip3"⟩
      else .error (GoErr.errMsg "no such container") }

/-- Counterexample for **C4**: the claim says one malformed backend among
three valid ones is skipped, yielding the valid descriptors.  The code
returns the malformed backend's parse error for the whole discovery call
instead and yields no collection at all. -/
theorem discover_one_malformed_aborts_all :
    DiscoverS3Instances daemonOneMalformed =
      .error (GoErr.wrap "failed to parse instance ID" (GoErr.errMsg "invalid syntax")) :=
  rfl

/-- Helper: if some name of the container matches the recognition marker
and its inspection-and-parse fails, the per-container name loop fails. -/
theorem discoverNames_not_ok_of_bad_details (daemon : DockerDaemon) (cid : String)
    (names : List String) (nm : String) (hmem : nm ∈ names)
    (hmatch : containsSub nm.data s3ContainerMarker.data = true)
    (hbad : (getContainerDetails daemon cid).isOk = false) :
    (discoverNames daemon cid names).isOk = false := by
  induction names with
  | nil => cases hmem
  | cons a rest ih =>
    by_cases hc : containsSub a.data s3ContainerMarker.data = true
    · cases hdet : getContainerDetails daemon cid with
      | error e => simp [discoverNames, hc, hdet, Except.isOk, Except.toBool]
      | ok d => rw [hdet] at hbad; simp [Except.isOk, Except.toBool] at hbad
    · have hmem' : nm ∈ rest := by
        cases hmem with
        | head => exact absurd hmatch hc
        | tail _ h => exact h
      simpa [discoverNames, hc] using ih hmem'

/-- Helper: a failing per-container name loop for any listed container
makes the whole container loop fail. -/
theorem discoverContainers_not_ok_of_bad (daemon : DockerDaemon)
    (cs : List ContainerSummary) (c : ContainerSummary) (hc : c ∈ cs)
    (hbad : (discoverNames daemon c.id c.names).isOk = false) :
    (discoverContainers daemon cs).isOk = false := by
  induction cs with
  | nil => cases hc
  | cons a rest ih =>
    cases hc with
    | head =>
      cases hdn : discoverNames daemon c.id c.names with
      | error e => simp [discoverContainers, hdn, Except.isOk, Except.toBool]
      | ok ds => rw [hdn] at hbad; simp [Except.isOk, Except.toBool] at hbad
    | tail _ h =>
      cases hdn : discoverNames daemon a.id a.names with
      | error e => simp [discoverContainers, hdn, Except.isOk, Except.toBool]
      | ok ds =>
        have hih := ih h
        cases hrest : discoverContainers daemon rest with
        | error e => simp [discoverContainers, hdn, hrest, Except.isOk, Except.toBool]
        | ok more => rw [hrest] at hih; simp [Except.isOk, Except.toBool] at hih

/-- **C4** (corrected): a matched backend whose metadata does not parse
(here: whose inspection or ordinal parse fails) does not get skipped — it
aborts the entire discovery call with an error, so no usable collection of
the remaining valid backends is returned. -/
theorem discover_malformed_backend_aborts_discovery (daemon : DockerDaemon)
    (cs : List ContainerSummary) (c : ContainerSummary) (nm : String)
    (hlist : daemon.containerList = .ok cs) (hc : c ∈ cs) (hnm : nm ∈ c.names)
    (hmatch : containsSub nm.data s3ContainerMarker.data = true)
    (hbad : (getContainerDetails daemon c.id).isOk = false) :
    (DiscoverS3Instances daemon).isOk = false := by
  unfold DiscoverS3Instances
  rw [hlist]
  exact discoverContainers_not_ok_of_bad daemon cs c hc
    (discoverNames_not_ok_of_bad_details daemon c.id c.names nm hnm hmatch hbad)

/-- Closed witness for `discover_malformed_backend_aborts_discovery` at the
concrete one-malformed-among-three-valid daemon. -/
theorem discover_malformed_backend_aborts_discovery_witness :
    (⟨"cx", ["/amazin-object-storage-node-x"]⟩ : ContainerSummary) ∈
        containersOneMalformed ∧
      (DiscoverS3Instances daemonOneMalformed).isOk = false :=
  ⟨by decide,
    discover_malformed_backend_aborts_discovery daemonOneMalformed
      containersOneMalformed ⟨"cx", ["/amazin-object-storage-node-x"]⟩
      "/amazin-object-storage-node-x" rfl (by decide)
      (by decide) (by decide) rfl⟩

/-- Helper: a container none of whose names matches the marker contributes
nothing and cannot fail. -/
theorem discoverNames_ok_empty_of_no_match (daemon : DockerDaemon) (cid : String)
    (names : List String)
    (h : ∀ nm ∈ names, containsSub nm.data s3ContainerMarker.data = false) :
    discoverNames daemon cid names = .ok [] := by
  induction names with
  | nil => rfl
  | cons a rest ih =>
    have ha := h a (List.mem_cons_self a rest)
    simpa [discoverNames, ha] using ih fun nm hm => h nm (List.mem_cons_of_mem a hm)

/-- Helper: with no matching names anywhere the container loop returns the
empty collection without error. -/
theorem discoverContainers_ok_empty_of_no_match (daemon : DockerDaemon)
    (cs : List ContainerSummary)
    (h : ∀ c ∈ cs, ∀ nm ∈ c.names, containsSub nm.data s3ContainerMarker.data = false) :
    discoverContainers daemon cs = .ok [] := by
  induction cs with
  | nil => rfl
  | cons a rest ih =>
    have ha := discoverNames_ok_empty_of_no_match daemon a.id a.names
      (h a (List.mem_cons_self a rest))
    rw [discoverContainers, ha, ih fun c hc nm hnm => h c (List.mem_cons_of_mem a hc) nm hnm]
    rfl

/-- **C8** (confirmed): when the container listing succeeds and no listed
container is a storage backend (zero backends running), discovery returns
the empty collection together with no error — the success value, never an
error value.  (In the Go code this value is the literal non-nil slice
`[]S3Instance{}` built at `part_005:49`.) -/
theorem discover_zero_backends_empty_ok (daemon : DockerDaemon)
    (cs : List ContainerSummary)
    (hlist : daemon.containerList = .ok cs)
    (hnone : ∀ c ∈ cs, ∀ nm ∈ c.names,
      containsSub nm.data s3ContainerMarker.data = false) :
    DiscoverS3Instances daemon = .ok [] := by
  unfold DiscoverS3Instances
  rw [hlist]
  exact discoverContainers_ok_empty_of_no_match daemon cs hnone

/-- A daemon where the listing succeeds and only a non-backend container
is running. -/
def daemonNoBackends : DockerDaemon :=
  { containerList := .ok [⟨"web", ["/frontend-1"]⟩],
    containerInspect := fun _ => .error (GoErr.errMsg "no such container") }

/-- Closed witness for `discover_zero_backends_empty_ok` at a listing with
one non-backend container. -/
theorem discover_zero_backends_empty_ok_witness :
    daemonNoBackends.containerList = .ok [⟨"web", ["/frontend-1"]⟩] ∧
      DiscoverS3Instances daemonNoBackends = .ok [] :=
  ⟨rfl, discover_zero_backends_empty_ok daemonNoBackends [⟨"web", ["/frontend-1"]⟩]
    rfl (by decide)⟩

/-! ## The listing loop (`MinioClient.GetObjects`, `client.go:108`)

The `select` loop over the object channel and the context's done channel is
embedded as a deterministic trace of observed events.  A trace that never
reaches a terminal event would block forever; the embedding returns `none`
for it. -/

/-- One event observed by the listing loop: the object channel delivers an
entry (whose `Err` field may be set), the object channel closes, or the
context's done channel fires (`deadline = true` when `ctx.Err()` is
`context.DeadlineExceeded`, `false` when it is `context.Canceled`). -/
inductive ListEvent where
  | entry (key : String) (err : Option GoErr)
  | closedChan
  | ctxDone (deadline : Bool)
  deriving DecidableEq, Repr

/-- The Go pair returned by `GetObjects`: the ids slice (with `none` for a
nil slice) and the error. -/
structure GoListResult where
  ids : Option (List String)
  err : Option GoErr
  deriving DecidableEq, Repr

/-- The loop body of `GetObjects` (`client.go:115-135`): a closed channel
returns the accumulated ids with nil error; an entry with a non-nil `Err`
returns `(nil, Err)`; an entry with a key appends it; a fired done channel
returns `(nil, ctx.Err())` when the deadline was exceeded and — the
`context.Canceled` branch — the accumulated ids with nil error. -/
def getObjectsLoop (acc : List String) : List ListEvent → Option GoListResult
  | [] => none
  | ev :: rest =>
    match ev with
    | .closedChan => some { ids := some acc, err := none }
    | .entry key errOpt =>
      match errOpt with
      | some e => some { ids := none, err := some e }
      | none => getObjectsLoop (acc ++ [key]) rest
    | .ctxDone deadline =>
      if deadline then some { ids := none, err := some GoErr.deadlineExceeded }
      else some { ids := some acc, err := none }

/-- Function `MinioClient.GetObjects` (`client.go:108`) as a function of
the observed event trace, starting from the empty (non-nil) ids slice. -/
def clientGetObjects (events : List ListEvent) : Option GoListResult :=
  getObjectsLoop [] events

/-- Counterexample for **C10**: the claim says a mid-listing cancellation
returns the ids collected so far together with the cancellation error.
After collecting `"a"`, a plain cancellation returns `(["a"], nil)` — the
cancellation error is dropped — and a deadline expiry returns
`(nil, DeadlineExceeded)` — the collected ids are dropped. -/
theorem getObjects_cancellation_counterexample :
    clientGetObjects [.entry "a" none, .ctxDone false] =
        some { ids := some ["a"], err := none } ∧
      clientGetObjects [.entry "a" none, .ctxDone true] =
        some { ids := none, err := some GoErr.deadlineExceeded } :=
  ⟨rfl, rfl⟩

/-- Helper: successful entries accumulate in order before any terminal
event. -/
theorem getObjectsLoop_append_entries (keys : List String) (acc : List String)
    (tail : List ListEvent) :
    getObjectsLoop acc (keys.map (fun k => ListEvent.entry k none) ++ tail) =
      getObjectsLoop (acc ++ keys) tail := by
  induction keys generalizing acc with
  | nil => simp
  | cons k ks ih => simp [getObjectsLoop, ih]

/-- **C10** (corrected): the listing drains fully on channel close
(returning all collected ids, nil error) and fails with the stream's error
when an entry carries one (returning nil ids).  On context cancellation
mid-listing the code does not return the collected ids together with the
cancellation error: a plain cancellation returns the ids collected so far
with a nil error (the cancellation error is dropped), and a deadline expiry
returns nil ids with the deadline error (the collected ids are dropped). -/
theorem getObjects_trace_behaviour (keys : List String) :
    clientGetObjects (keys.map (fun k => ListEvent.entry k none) ++ [.closedChan]) =
        some { ids := some keys, err := none } ∧
      clientGetObjects (keys.map (fun k => ListEvent.entry k none) ++ [.ctxDone false]) =
        some { ids := some keys, err := none } ∧
      clientGetObjects (keys.map (fun k => ListEvent.entry k none) ++ [.ctxDone true]) =
        some { ids := none, err := some GoErr.deadlineExceeded } ∧
      ∀ badKey e rest,
        clientGetObjects (keys.map (fun k => ListEvent.entry k none) ++
            ListEvent.entry badKey (some e) :: rest) =
          some { ids := none, err := some e } := by
  refine ⟨?_, ?_, ?_, ?_⟩
  · rw [clientGetObjects, getObjectsLoop_append_entries]
    simp [getObjectsLoop]
  · rw [clientGetObjects, getObjectsLoop_append_entries]
    simp [getObjectsLoop]
  · rw [clientGetObjects, getObjectsLoop_append_entries]
    simp [getObjectsLoop]
  · intro badKey e rest
    rw [clientGetObjects, getObjectsLoop_append_entries]
    simp [getObjectsLoop]
